import Mathlib

set_option maxRecDepth 100000

/-!
Shallow embedding of the eSewa FastAPI e-commerce application
(`src/main.py`, `src/database.py`).

Conventions of the embedding:
* machine bytes and 32-bit words are `Nat` with explicit reduction
  modulo `2 ^ 32` where the source's arithmetic wraps;
* Python `float` currency amounts are modelled as exact rationals `ℚ`,
  with `round(x, 2)` modelled as round-half-to-even at two decimals
  (Python's `round` semantics on exactly representable values);
* the SQLite store is an explicit `DB` value threaded through the
  operations; every handler returns the new store so that effects are
  visible;
* `uuid.uuid4()` is nondeterministic in the source, so the generated
  transaction uuid is an explicit argument of `create_order`;
* fallible operations return `Except String` / `Option`.
-/

/-! ## 32-bit words and SHA-256 (the source calls `hashlib.sha256`) -/

/-- Reduce a natural number to a 32-bit word, as the source's digest
arithmetic is on 32-bit words. -/
def w32 (n : Nat) : Nat := n % 4294967296

/-- Right rotation of a 32-bit word. -/
def rotr (x n : Nat) : Nat := w32 ((x >>> n) + (x <<< (32 - n)))

/-- Bitwise complement within 32 bits. -/
def compl32 (x : Nat) : Nat := 4294967295 - x

/-- SHA-256 small sigma 0. -/
def ssig0 (x : Nat) : Nat := (rotr x 7) ^^^ (rotr x 18) ^^^ (x >>> 3)

/-- SHA-256 small sigma 1. -/
def ssig1 (x : Nat) : Nat := (rotr x 17) ^^^ (rotr x 19) ^^^ (x >>> 10)

/-- SHA-256 big sigma 0. -/
def bsig0 (x : Nat) : Nat := (rotr x 2) ^^^ (rotr x 13) ^^^ (rotr x 22)

/-- SHA-256 big sigma 1. -/
def bsig1 (x : Nat) : Nat := (rotr x 6) ^^^ (rotr x 11) ^^^ (rotr x 25)

/-- SHA-256 choice function. -/
def chFn (x y z : Nat) : Nat := (x &&& y) ^^^ ((compl32 x) &&& z)

/-- SHA-256 majority function. -/
def majFn (x y z : Nat) : Nat := (x &&& y) ^^^ (x &&& z) ^^^ (y &&& z)

/-- The 64 SHA-256 round constants. -/
def sha256K : List Nat :=
  [1116352408, 1899447441, 3049323471, 3921009573, 961987163,
   1508970993, 2453635748, 2870763221, 3624381080, 310598401,
   607225278, 1426881987, 1925078388, 2162078206, 2614888103,
   3248222580, 3835390401, 4022224774, 264347078, 604807628,
   770255983, 1249150122, 1555081692, 1996064986, 2554220882,
   2821834349, 2952996808, 3210313671, 3336571891, 3584528711,
   113926993, 338241895, 666307205, 773529912, 1294757372,
   1396182291, 1695183700, 1986661051, 2177026350, 2456956037,
   2730485921, 2820302411, 3259730800, 3345764771, 3516065817,
   3600352804, 4094571909, 275423344, 430227734, 506948616,
   659060556, 883997877, 958139571, 1322822218, 1537002063,
   1747873779, 1955562222, 2024104815, 2227730452, 2361852424,
   2428436474, 2756734187, 3204031479, 3329325298]

/-- The SHA-256 initial hash value. -/
def sha256H0 : List Nat :=
  [1779033703, 3144134277, 1013904242, 2773480762, 1359893119,
   2600822924, 528734635, 1541459225]

/-- Extend a 16-word message block to the 64-word SHA-256 schedule;
the counter is the number of words still to append. -/
def extendW : Nat → List Nat → List Nat
  | 0, w => w
  | n + 1, w =>
      let l := w.length
      let nw := w32 (ssig1 (w.getD (l - 2) 0) + w.getD (l - 7) 0 +
                     ssig0 (w.getD (l - 15) 0) + w.getD (l - 16) 0)
      extendW n (w ++ [nw])

/-- One SHA-256 round on the working state `[a,b,c,d,e,f,g,h]` with a
schedule word and round constant. -/
def sha256Round (st : List Nat) (wk : Nat × Nat) : List Nat :=
  match st with
  | [a, b, c, d, e, f, g, h] =>
      let t1 := w32 (h + bsig1 e + chFn e f g + wk.2 + wk.1)
      let t2 := w32 (bsig0 a + majFn a b c)
      [w32 (t1 + t2), a, b, c, w32 (d + t1), e, f, g]
  | st => st

/-- SHA-256 compression of one 16-word block into the running hash. -/
def sha256Block (h : List Nat) (block : List Nat) : List Nat :=
  let w := extendW 48 block
  let st := (w.zip sha256K).foldl sha256Round h
  (h.zip st).map (fun p => w32 (p.1 + p.2))

/-- Big-endian bytes of a word, `k` bytes wide. -/
def beBytes : Nat → Nat → List Nat
  | 0, _ => []
  | k + 1, n => (n >>> (8 * k)) % 256 :: beBytes k n

/-- Group a byte list into big-endian 32-bit words (the byte count is a
multiple of 4 after SHA-256 padding). -/
def bytesToWords : List Nat → List Nat
  | b0 :: b1 :: b2 :: b3 :: rest =>
      ((b0 <<< 24) + (b1 <<< 16) + (b2 <<< 8) + b3) :: bytesToWords rest
  | _ => []

/-- Split a word list into chunks of 16; the fuel is the list length. -/
def chunks16 : Nat → List Nat → List (List Nat)
  | 0, _ => []
  | _, [] => []
  | n + 1, l => l.take 16 :: chunks16 n (l.drop 16)

/-- SHA-256 padding: append `0x80`, zeros to 56 mod 64, then the bit
length as 8 big-endian bytes. -/
def sha256Pad (msg : List Nat) : List Nat :=
  let l := msg.length
  let zeros := (120 - (l + 1) % 64) % 64
  msg ++ [0x80] ++ List.replicate zeros 0 ++ beBytes 8 (8 * l)

/-- SHA-256 of a byte list, as the 32-byte digest. -/
def sha256 (msg : List Nat) : List Nat :=
  let ws := bytesToWords (sha256Pad msg)
  let h := (chunks16 ws.length ws).foldl sha256Block sha256H0
  h.flatMap (beBytes 4)

/-- HMAC-SHA256 (the source calls `hmac.new(key, msg, hashlib.sha256)`). -/
def hmacSha256 (key msg : List Nat) : List Nat :=
  let k0 := if 64 < key.length then sha256 key else key
  let k := k0 ++ List.replicate (64 - k0.length) 0
  let inner := sha256 ((k.map (fun b => b ^^^ 0x36)) ++ msg)
  sha256 ((k.map (fun b => b ^^^ 0x5c)) ++ inner)

/-! ## UTF-8 and base64 -/

/-- UTF-8 bytes of one character. -/
def utf8Bytes (c : Char) : List Nat :=
  let n := c.toNat
  if n < 0x80 then [n]
  else if n < 0x800 then [0xc0 + (n >>> 6), 0x80 + (n &&& 0x3f)]
  else if n < 0x10000 then
    [0xe0 + (n >>> 12), 0x80 + ((n >>> 6) &&& 0x3f), 0x80 + (n &&& 0x3f)]
  else
    [0xf0 + (n >>> 18), 0x80 + ((n >>> 12) &&& 0x3f),
     0x80 + ((n >>> 6) &&& 0x3f), 0x80 + (n &&& 0x3f)]

/-- UTF-8 encoding of a string (Python `str.encode()`). -/
def strBytes (s : String) : List Nat := (s.data.map utf8Bytes).flatten

/-- Whether a byte is a UTF-8 continuation byte `0x80..0xBF`. -/
def isCont (b : Nat) : Bool := 0x80 ≤ b && b < 0xc0

/-- Strict UTF-8 decoding of bytes to characters (Python
`bytes.decode()`): rejects truncated and overlong sequences, encoded
surrogates, code points above `0x10FFFF`, and stray continuation or
invalid lead bytes, exactly as CPython's strict codec does. -/
def utf8Decode : List Nat → Option (List Char)
  | [] => some []
  | b :: rest =>
      if b < 0x80 then (utf8Decode rest).map (fun cs => Char.ofNat b :: cs)
      else if b < 0xc2 then none
      else if b < 0xe0 then
        match rest with
        | b1 :: rest2 =>
            if isCont b1 then
              (utf8Decode rest2).map
                (fun cs => Char.ofNat ((b - 0xc0) * 64 + (b1 - 0x80)) :: cs)
            else none
        | _ => none
      else if b < 0xf0 then
        match rest with
        | b1 :: b2 :: rest2 =>
            if isCont b1 && isCont b2 then
              let cp := (b - 0xe0) * 4096 + (b1 - 0x80) * 64 + (b2 - 0x80)
              if cp < 0x800 || (0xd800 ≤ cp && cp < 0xe000) then none
              else (utf8Decode rest2).map (fun cs => Char.ofNat cp :: cs)
            else none
        | _ => none
      else if b < 0xf5 then
        match rest with
        | b1 :: b2 :: b3 :: rest2 =>
            if isCont b1 && isCont b2 && isCont b3 then
              let cp := (b - 0xf0) * 262144 + (b1 - 0x80) * 4096 +
                        (b2 - 0x80) * 64 + (b3 - 0x80)
              if cp < 0x10000 || 0x110000 ≤ cp then none
              else (utf8Decode rest2).map (fun cs => Char.ofNat cp :: cs)
            else none
        | _ => none
      else none

/-- Decode bytes to a string via strict UTF-8. -/
def bytesToStr (bs : List Nat) : Option String :=
  (utf8Decode bs).map String.mk

/-- The base64 alphabet as characters. -/
def b64Alphabet : List Char :=
  "ABCDEFGHIJKLMNOPQRSTUVWXYZabcdefghijklmnopqrstuvwxyz0123456789+/".data

/-- The base64 digit of a 6-bit value. -/
def b64Char (n : Nat) : Char := b64Alphabet.getD n 'A'

/-- base64-encode a byte list (the source calls `base64.b64encode`). -/
def b64encode : List Nat → String
  | [] => ""
  | [a] =>
      String.mk [b64Char (a >>> 2), b64Char ((a &&& 3) <<< 4), '=', '=']
  | [a, b] =>
      String.mk [b64Char (a >>> 2), b64Char (((a &&& 3) <<< 4) + (b >>> 4)),
                 b64Char ((b &&& 15) <<< 2), '=']
  | a :: b :: c :: rest =>
      String.mk [b64Char (a >>> 2), b64Char (((a &&& 3) <<< 4) + (b >>> 4)),
                 b64Char (((b &&& 15) <<< 2) + (c >>> 6)), b64Char (c &&& 63)]
        ++ b64encode rest

/-- The 6-bit value of a base64 digit. -/
def b64Val (c : Char) : Nat := (b64Alphabet.indexOf c)

/-- Whether a character is a base64 data character. -/
def isB64 (c : Char) : Bool := b64Alphabet.contains c

/-- The quad-position state machine of CPython's `binascii.a2b_base64`
in non-strict mode, which `base64.b64decode` calls: characters outside
the alphabet are discarded; a padding character at quad position 0 or 1
is discarded too; at quad position 2 or 3 padding characters accumulate
and decoding stops successfully once position plus pads reaches 4 (data
characters reset the pad count); input ending at quad position 1, 2 or
3 is a `binascii.Error`. The accumulator holds the output bytes in
reverse. -/
def a2b64 : List Char → Nat → Nat → Nat → List Nat → Option (List Nat)
  | [], 0, _, _, acc => some acc.reverse
  | [], _, _, _, _ => none
  | c :: rest, quadPos, leftchar, pads, acc =>
      if c = '=' then
        if 2 ≤ quadPos then
          if 4 ≤ quadPos + (pads + 1) then some acc.reverse
          else a2b64 rest quadPos leftchar (pads + 1) acc
        else a2b64 rest quadPos leftchar pads acc
      else if isB64 c then
        let v := b64Val c
        match quadPos with
        | 0 => a2b64 rest 1 v 0 acc
        | 1 => a2b64 rest 2 (v &&& 15) 0 (((leftchar <<< 2) + (v >>> 4)) :: acc)
        | 2 => a2b64 rest 3 (v &&& 3) 0 (((leftchar <<< 4) + (v >>> 2)) :: acc)
        | _ => a2b64 rest 0 0 0 (((leftchar <<< 6) + v) :: acc)
      else a2b64 rest quadPos leftchar pads acc

/-- base64-decode modelling Python `base64.b64decode` on `str` input
without validation. -/
def b64decode (s : String) : Option (List Nat) :=
  a2b64 s.data 0 0 0 []

/-! ## Exact currency arithmetic and Python `round(x, 2)` / `%.2f`

The built-in rational operations of the library carry `irreducible`
bodies, so the embedding uses its own kernel-reducible arithmetic on
`ℚ` through `mkRat`; values are always kept in normalised form, hence
structural equality is semantic equality. -/

/-- Exact addition on `ℚ` through `mkRat`. -/
def qadd (a b : ℚ) : ℚ := mkRat (a.num * b.den + b.num * a.den) (a.den * b.den)

/-- Exact subtraction on `ℚ` through `mkRat`. -/
def qsub (a b : ℚ) : ℚ := mkRat (a.num * b.den - b.num * a.den) (a.den * b.den)

/-- Exact multiplication on `ℚ` through `mkRat`. -/
def qmul (a b : ℚ) : ℚ := mkRat (a.num * b.num) (a.den * b.den)

/-- Round a rational to the nearest integer, ties to even (Python's
`round` on exactly representable values). -/
def roundHalfEven (q : ℚ) : ℤ :=
  let f := q.floor
  let r := qsub q (mkRat f 1)
  if Rat.blt r (mkRat 1 2) then f
  else if Rat.blt (mkRat 1 2) r then f + 1
  else if f % 2 = 0 then f else f + 1

/-- Python `round(x, 2)`: round to two decimal places, ties to even. -/
def round2 (q : ℚ) : ℚ := mkRat (roundHalfEven (qmul q (mkRat 100 1))) 100

/-- Two-digit zero-padded decimal of `n < 100`. -/
def twoDigits (n : Nat) : String :=
  (if n < 10 then "0" else "") ++ toString n

/-- Python `f"{x:.2f}"`: fixed-point with exactly two decimals. -/
def fmt2 (q : ℚ) : String :=
  let n := roundHalfEven (qmul q (mkRat 100 1))
  let sgn := if n < 0 then "-" else ""
  let m := n.natAbs
  sgn ++ toString (m / 100) ++ "." ++ twoDigits (m % 100)

/-! ## JSON payloads (the source calls `json.loads` on the decoded
callback data)

The parser below covers the `json.loads` grammar: objects, arrays,
strings with escape sequences, numbers, `true`, `false`, `null`, and
the `NaN`/`Infinity`/`-Infinity` extensions CPython accepts by
default. Two documented idealisations remain: `\uXXXX` escapes
denoting lone UTF-16 surrogates are outside the modelled fragment and
rejected (a rendered surrogate would make the handler's `str.encode`
raise into its failure path), and a non-integer numeric literal is
carried by its source text, whose rendering coincides with Python's
`repr` exactly when the literal is the shortest round-trip decimal of
its value — the form Python itself prints. -/

/-- A parsed JSON value. A non-integer number keeps its literal text
(see the section comment); strings, integers, booleans and null are
exact. -/
inductive JVal where
  | jstr (s : String)
  | jint (n : ℤ)
  | jnum (t : String)
  | jbool (b : Bool)
  | jnull
  | jarr (xs : List JVal)
  | jobj (kvs : List (String × JVal))

/-- A decoded callback payload: the key/value pairs of a JSON object.
Keys are unique: a duplicate key overwrites the value in place, as a
Python `dict` built by `json.loads` does. -/
abbrev Payload := List (String × JVal)

/-- Insertion into a parsed object: a duplicate key replaces the value
at the key's first position, a new key is appended — Python `dict`
construction order. -/
def dictInsert (kvs : List (String × JVal)) (k : String) (v : JVal) :
    List (String × JVal) :=
  if (kvs.lookup k).isSome then
    kvs.map (fun kv => if kv.1 = k then (k, v) else kv)
  else kvs ++ [(k, v)]

/-- Python `payload.get(k)`. -/
def pget (p : Payload) (k : String) : Option JVal :=
  List.lookup k p

/-- The opening brace character. -/
def lbraceChar : Char := Char.ofNat 123

/-- The closing brace character. -/
def rbraceChar : Char := Char.ofNat 125

/-- Two lowercase hex digits of a byte value. -/
def hex2 (n : Nat) : String :=
  let d := "0123456789abcdef".data
  String.mk [d.getD (n / 16 % 16) '0', d.getD (n % 16) '0']

/-- Python `repr` escaping of one string character under quote `q`:
backslash and the quote are escaped, `\n`, `\r`, `\t` use their short
forms, other control characters and `0x7f` use `\xHH`; characters at
or above `0x80` are rendered literally (Python escapes the
non-printable ones among them — outside the modelled fragment). -/
def reprEscapeChar (q c : Char) : List Char :=
  if c = '\\' then ['\\', '\\']
  else if c = q then ['\\', q]
  else if c = '\n' then ['\\', 'n']
  else if c = '\r' then ['\\', 'r']
  else if c = '\t' then ['\\', 't']
  else if c.toNat < 32 || c.toNat = 127 then '\\' :: 'x' :: (hex2 c.toNat).data
  else [c]

/-- Python `repr` of a string: single-quoted, except double-quoted
when the string contains a single quote but no double quote. -/
def pyReprStr (s : String) : String :=
  let apos := Char.ofNat 39
  let q := if s.data.contains apos && !(s.data.contains '"') then '"' else apos
  String.mk (q :: (s.data.map (reprEscapeChar q)).flatten ++ [q])

/-! ## Binary64 semantics of JSON numbers

A non-integer JSON number becomes a Python `float`, an IEEE binary64
value; the handler renders it through `repr`, which prints the
shortest decimal that round-trips to the same double. Both the nearest
double of a decimal literal and its shortest rendering are exact
integer computations, carried out below on `ℚ`; the `%!.15g` text
SQLite 3.40 produces when a bound float is compared against a TEXT
column is computed the same way. -/

/-- Whether a character is a decimal digit. -/
def isDigit (c : Char) : Bool := '0' ≤ c && c ≤ '9'

/-- Natural value of a digit run. -/
def digitsVal (cs : List Char) : Nat :=
  cs.foldl (fun acc c => acc * 10 + (c.toNat - 48)) 0

/-- Boolean `≤` on `ℚ`. -/
def qle (a b : ℚ) : Bool := !(Rat.blt b a)

/-- Exponentiation by squaring (the first argument is fuel, 64 covers
every exponent in range). -/
def powsq : Nat → Nat → Nat → Nat
  | 0, _, _ => 1
  | fuel + 1, b, e =>
      if e = 0 then 1
      else
        let h := powsq fuel (b * b) (e / 2)
        if e % 2 = 1 then h * b else h

/-- The rational `2 ^ e`. -/
def pow2Q (e : ℤ) : ℚ :=
  if 0 ≤ e then mkRat (powsq 64 2 e.toNat) 1 else mkRat 1 (powsq 64 2 (-e).toNat)

/-- The rational `10 ^ e`. -/
def pow10Q (e : ℤ) : ℚ :=
  if 0 ≤ e then mkRat (powsq 64 10 e.toNat) 1 else mkRat 1 (powsq 64 10 (-e).toNat)

/-- Fuel-based binary logarithm on naturals. -/
def log2fuel : Nat → Nat → Nat
  | 0, _ => 0
  | fuel + 1, n => if 2 ≤ n then log2fuel fuel (n / 2) + 1 else 0

/-- Floor of `log2` of a positive rational. -/
def log2floorQ (q : ℚ) : ℤ :=
  let e0 : ℤ := (log2fuel 1500 q.num.natAbs : ℤ) - (log2fuel 1500 q.den : ℤ)
  if qle (pow2Q (e0 + 1)) q then e0 + 1
  else if qle (pow2Q e0) q then e0
  else e0 - 1

/-- Decimal digit count of a natural number. -/
def digitCount (n : Nat) : Nat := (toString n).length

/-- Auxiliary loop for the floor of `log10` below 1. -/
def neglog10 : Nat → ℚ → ℤ → ℤ
  | 0, _, acc => acc
  | fuel + 1, q, acc =>
      if qle (mkRat 1 1) q then acc
      else neglog10 fuel (qmul q (mkRat 10 1)) (acc - 1)

/-- Floor of `log10` of a positive rational (the fuel is ample for any
double). -/
def log10floorQ (q : ℚ) : ℤ :=
  if qle (mkRat 1 1) q then (digitCount q.floor.toNat : ℤ) - 1
  else neglog10 1200 (qmul q (mkRat 10 1)) (-1)

/-- The nearest IEEE binary64 of a positive rational, as `some (m, e)`
with value `m * 2 ^ e`, ties to even, subnormals clamped to
`e = -1074`; `some (0, 0)` when the value rounds to zero and `none` on
overflow to infinity. -/
def toDbl (q : ℚ) : Option (Nat × ℤ) :=
  let e0 := log2floorQ q - 52
  let e := if e0 < -1074 then (-1074 : ℤ) else e0
  let m0 := (roundHalfEven (qmul q (pow2Q (-e)))).toNat
  let me1 := if m0 = 2 ^ 53 then ((2 ^ 52 : Nat), e + 1) else (m0, e)
  if qle (pow2Q 1024) (qmul (mkRat me1.1 1) (pow2Q me1.2)) then none
  else some me1

/-- Whether the decimal `c * 10 ^ j` lies inside the rounding interval
of the double `(m, e)`: half an ulp on each side (a quarter below at a
normal power of two), inclusive exactly when `m` is even, mirroring
round-to-nearest, ties to even. -/
def inIntervalDbl (m : Nat) (e : ℤ) (c : ℤ) (j : ℤ) : Bool :=
  let v := qmul (mkRat m 1) (pow2Q e)
  let hup := pow2Q (e - 1)
  let hdn := if m = 2 ^ 52 ∧ -1074 < e then pow2Q (e - 2) else pow2Q (e - 1)
  let lo := qsub v hdn
  let hi := qadd v hup
  let cv := qmul (mkRat c 1) (pow10Q j)
  if m % 2 = 0 then qle lo cv && qle cv hi
  else Rat.blt lo cv && Rat.blt cv hi

/-- Strip trailing zero digits; the first argument is fuel. -/
def stripZeros : Nat → Nat → Nat
  | 0, n => n
  | fuel + 1, n => if n ≠ 0 && n % 10 = 0 then stripZeros fuel (n / 10) else n

/-- Search for the fewest significant digits representing the double
`(m, e)`, trying `k = 1, 2, …` digits; returns the digit block (with
trailing zeros stripped) and the decimal exponent of its leading
digit. Seventeen digits always suffice. -/
def shortestLoop (m : Nat) (e : ℤ) (n0 : ℤ) : Nat → Nat → Nat × ℤ
  | 0, _ => (0, 0)
  | fuel + 1, k =>
      let j := n0 - (k : ℤ) + 1
      let c := roundHalfEven (qmul (qmul (mkRat m 1) (pow2Q e)) (pow10Q (-j)))
      if inIntervalDbl m e c j then
        let cN := c.toNat
        let n := n0 + ((digitCount cN : ℤ) - (k : ℤ))
        (stripZeros (digitCount cN) cN, n)
      else shortestLoop m e n0 fuel (k + 1)

/-- Shortest round-trip decimal of a positive double. -/
def shortestDigits (m : Nat) (e : ℤ) : Nat × ℤ :=
  shortestLoop m e (log10floorQ (qmul (mkRat m 1) (pow2Q e))) 18 1

/-- The 15-significant-digit decimal of a positive double, as used by
SQLite's `%!.15g` text conversion. -/
def digits15 (m : Nat) (e : ℤ) : Nat × ℤ :=
  let v := qmul (mkRat m 1) (pow2Q e)
  let n0 := log10floorQ v
  let c := (roundHalfEven (qmul v (pow10Q (-(n0 - 14))))).toNat
  let n := n0 + ((digitCount c : ℤ) - 15)
  (stripZeros (digitCount c) c, n)

/-- Python `repr` formatting of a positive finite float from its digit
block and leading decimal exponent: fixed notation for exponents in
`[-4, 16)`, otherwise scientific with a sign and a two-digit minimum
exponent. -/
def fmtPyFloat (d : Nat) (n : ℤ) : String :=
  let ds := toString d
  if -4 ≤ n ∧ n < 16 then
    if (digitCount d : ℤ) - 1 ≤ n then
      ds ++ String.mk (List.replicate (n - ((digitCount d : ℤ) - 1)).toNat '0') ++ ".0"
    else if 0 ≤ n then
      String.mk (ds.data.take (n + 1).toNat) ++ "." ++
        String.mk (ds.data.drop (n + 1).toNat)
    else
      "0." ++ String.mk (List.replicate (-n - 1).toNat '0') ++ ds
  else
    let mant :=
      if digitCount d = 1 then ds
      else String.mk (ds.data.take 1) ++ "." ++ String.mk (ds.data.drop 1)
    let esgn := if n < 0 then "-" else "+"
    let epad := if n.natAbs < 10 then "0" ++ toString n.natAbs else toString n.natAbs
    mant ++ "e" ++ esgn ++ epad

/-- SQLite `%!.15g` formatting of a positive finite float: as the
Python form but with fixed notation for exponents in `[-4, 15)` and a
mandatory `.0` on a bare mantissa. -/
def fmtSqFloat (d : Nat) (n : ℤ) : String :=
  let ds := toString d
  if -4 ≤ n ∧ n < 15 then
    if (digitCount d : ℤ) - 1 ≤ n then
      ds ++ String.mk (List.replicate (n - ((digitCount d : ℤ) - 1)).toNat '0') ++ ".0"
    else if 0 ≤ n then
      String.mk (ds.data.take (n + 1).toNat) ++ "." ++
        String.mk (ds.data.drop (n + 1).toNat)
    else
      "0." ++ String.mk (List.replicate (-n - 1).toNat '0') ++ ds
  else
    let mant :=
      if digitCount d = 1 then ds ++ ".0"
      else String.mk (ds.data.take 1) ++ "." ++ String.mk (ds.data.drop 1)
    let esgn := if n < 0 then "-" else "+"
    let epad := if n.natAbs < 10 then "0" ++ toString n.natAbs else toString n.natAbs
    mant ++ "e" ++ esgn ++ epad

/-- Sign and nearest double of a numeric literal as produced by the
JSON parser: `none` is an overflow to infinity, `some (0, 0)` a value
rounding to zero; decimal magnitudes beyond the double range are
settled without building the exact rational. -/
def litDouble (t : String) : Bool × Option (Nat × ℤ) :=
  let (neg, cs) :=
    match t.data with
    | '-' :: tl => (true, tl)
    | cs => (false, cs)
  let ip := cs.takeWhile isDigit
  let cs2 := cs.dropWhile isDigit
  let (fp, cs3) :=
    match cs2 with
    | '.' :: tl => (tl.takeWhile isDigit, tl.dropWhile isDigit)
    | _ => (([] : List Char), cs2)
  let ex : ℤ :=
    match cs3 with
    | _ :: tl =>
        match tl with
        | '-' :: ds => -((digitsVal (ds.takeWhile isDigit) : ℤ))
        | '+' :: ds => (digitsVal (ds.takeWhile isDigit) : ℤ)
        | ds => (digitsVal (ds.takeWhile isDigit) : ℤ)
    | [] => 0
  let mant := digitsVal (ip ++ fp)
  if mant = 0 then (neg, some (0, 0))
  else
    let n : ℤ := (digitCount mant : ℤ) - 1 + ex - (fp.length : ℤ)
    if 310 < n then (neg, none)
    else if n < -335 then (neg, some (0, 0))
    else (neg, toDbl (qmul (mkRat mant 1) (pow10Q (ex - (fp.length : ℤ)))))

/-- Python `str`/`repr` of the float a numeric literal denotes. -/
def pyFloatStr (t : String) : String :=
  if t = "nan" || t = "inf" || t = "-inf" then t
  else
    let (neg, d) := litDouble t
    let sgn := if neg then "-" else ""
    match d with
    | none => sgn ++ "inf"
    | some me =>
        if me.1 = 0 then sgn ++ "0.0"
        else
          let dn := shortestDigits me.1 me.2
          sgn ++ fmtPyFloat dn.1 dn.2

/-- The TEXT that SQLite's comparison sees for a bound float: NaN
binds NULL (`none`), infinities read `Inf`/`-Inf`, a negative zero
reads `0.0`, and finite values use the `%!.15g` conversion. -/
def sqliteFloatText (t : String) : Option String :=
  if t = "nan" then none
  else if t = "inf" then some "Inf"
  else if t = "-inf" then some "-Inf"
  else
    let (neg, d) := litDouble t
    match d with
    | none => some (if neg then "-Inf" else "Inf")
    | some me =>
        if me.1 = 0 then some "0.0"
        else
          let dn := digits15 me.1 me.2
          some ((if neg then "-" else "") ++ fmtSqFloat dn.1 dn.2)

mutual
/-- Python `repr` of a parsed JSON value. -/
def pyRepr : JVal → String
  | .jstr s => pyReprStr s
  | .jint n => toString n
  | .jnum t => pyFloatStr t
  | .jbool b => if b then "True" else "False"
  | .jnull => "None"
  | .jarr xs => "[" ++ pyReprList xs ++ "]"
  | .jobj kvs => String.mk [lbraceChar] ++ pyReprObj kvs ++ String.mk [rbraceChar]

/-- Comma-joined `repr`s of the elements of a list. -/
def pyReprList : List JVal → String
  | [] => ""
  | [v] => pyRepr v
  | v :: rest => pyRepr v ++ ", " ++ pyReprList rest

/-- Comma-joined `repr(key): repr(value)` pairs of a dict. -/
def pyReprObj : List (String × JVal) → String
  | [] => ""
  | [(k, v)] => pyReprStr k ++ ": " ++ pyRepr v
  | (k, v) :: rest => pyReprStr k ++ ": " ++ pyRepr v ++ ", " ++ pyReprObj rest
end

/-- Python f-string rendering (`str`) of a parsed JSON value; it
differs from `repr` only on strings, which render as themselves. -/
def pyStr : JVal → String
  | .jstr s => s
  | v => pyRepr v

/-- Python's f-string rendering of `payload.get(k)`: a missing key is
`None` and renders as the text `None`. -/
def pgetStr (p : Payload) (k : String) : String :=
  match pget p k with
  | none => "None"
  | some v => pyStr v

/-- Python `==` between `payload.get(k)` and a string: true only for
an equal string value — any non-string value compares unequal. -/
def jstrEq : Option JVal → String → Bool
  | some (.jstr t), s => t = s
  | _, _ => false

/-- Whether a character is JSON whitespace. -/
def isJsonWs (c : Char) : Bool :=
  c = ' ' || c = '\t' || c = '\n' || c = '\r'

/-- The value of a hexadecimal digit. -/
def hexVal (c : Char) : Option Nat :=
  if '0' ≤ c ∧ c ≤ '9' then some (c.toNat - 48)
  else if 'a' ≤ c ∧ c ≤ 'f' then some (c.toNat - 87)
  else if 'A' ≤ c ∧ c ≤ 'F' then some (c.toNat - 55)
  else none

/-- Parse a JSON string body after the opening quote, with the escape
sequences `json.loads` accepts; `\uXXXX` escapes combine over
surrogate pairs, and lone-surrogate escapes are outside the modelled
fragment and rejected. The accumulator holds the characters in
reverse. -/
def parseJStr : List Char → List Char → Option (String × List Char)
  | [], _ => none
  | c :: rest, acc =>
      if c = '"' then some (String.mk acc.reverse, rest)
      else if c = '\\' then
        match rest with
        | [] => none
        | e :: rest2 =>
            if e = '"' || e = '\\' || e = '/' then parseJStr rest2 (e :: acc)
            else if e = 'b' then parseJStr rest2 (Char.ofNat 8 :: acc)
            else if e = 'f' then parseJStr rest2 (Char.ofNat 12 :: acc)
            else if e = 'n' then parseJStr rest2 ('\n' :: acc)
            else if e = 'r' then parseJStr rest2 ('\r' :: acc)
            else if e = 't' then parseJStr rest2 ('\t' :: acc)
            else if e = 'u' then
              match rest2 with
              | h1 :: h2 :: h3 :: h4 :: rest3 =>
                  match hexVal h1, hexVal h2, hexVal h3, hexVal h4 with
                  | some a, some b2, some c2, some d2 =>
                      let u := a * 4096 + b2 * 256 + c2 * 16 + d2
                      if u < 0xd800 || 0xe000 ≤ u then
                        parseJStr rest3 (Char.ofNat u :: acc)
                      else if u < 0xdc00 then
                        match rest3 with
                        | e2 :: u2 :: h5 :: h6 :: h7 :: h8 :: rest4 =>
                            if e2 = '\\' && u2 = 'u' then
                              match hexVal h5, hexVal h6, hexVal h7, hexVal h8 with
                              | some a2, some b3, some c3, some d3 =>
                                  let lo := a2 * 4096 + b3 * 256 + c3 * 16 + d3
                                  if 0xdc00 ≤ lo && lo < 0xe000 then
                                    parseJStr rest4
                                      (Char.ofNat (0x10000 + (u - 0xd800) * 1024 +
                                        (lo - 0xdc00)) :: acc)
                                  else none
                              | _, _, _, _ => none
                            else none
                        | _ => none
                      else none
                  | _, _, _, _ => none
              | _ => none
            else none
      else if c.toNat < 32 then none
      else parseJStr rest (c :: acc)

/-- Parse the optional exponent of a JSON number, returning its
characters when present. -/
def parseExpPart (cs : List Char) : Option (Option (List Char) × List Char) :=
  match cs with
  | c :: tl =>
      if c = 'e' || c = 'E' then
        let (sgn, tl2) :=
          match tl with
          | s :: tl3 => if s = '+' || s = '-' then ([s], tl3) else (([] : List Char), tl)
          | [] => (([] : List Char), tl)
        let ds := tl2.takeWhile isDigit
        if ds.isEmpty then none
        else some (some (c :: (sgn ++ ds)), tl2.dropWhile isDigit)
      else some (none, cs)
  | [] => some (none, [])

/-- Parse a JSON number: optional minus, integer part without leading
zeros, optional fraction and exponent. Without fraction and exponent
it is a Python `int`, held exactly; otherwise the literal text is kept
(see the section comment). -/
def parseJNum (cs : List Char) : Option (JVal × List Char) :=
  let (sgnChars, cs1) :=
    match cs with
    | '-' :: tl => ([('-' : Char)], tl)
    | _ => (([] : List Char), cs)
  let ip := cs1.takeWhile isDigit
  let cs2 := cs1.dropWhile isDigit
  if ip.isEmpty then none
  else if 1 < ip.length && ip.headD '0' = '0' then none
  else
    match cs2 with
    | '.' :: tl =>
        let fp := tl.takeWhile isDigit
        let cs3 := tl.dropWhile isDigit
        if fp.isEmpty then none
        else
          match parseExpPart cs3 with
          | none => none
          | some (expPart, cs4) =>
              some (JVal.jnum (String.mk
                (sgnChars ++ ip ++ '.' :: fp ++ expPart.getD [])), cs4)
    | _ =>
        match parseExpPart cs2 with
        | none => none
        | some (none, cs4) =>
            let n : ℤ := (digitsVal ip : ℤ)
            some (JVal.jint (if sgnChars.isEmpty then n else -n), cs4)
        | some (some ex, cs4) =>
            some (JVal.jnum (String.mk (sgnChars ++ ip ++ ex)), cs4)

/-- Whether the first argument is a prefix of the second, returning
the remainder. -/
def stripPre : List Char → List Char → Option (List Char)
  | [], cs => some cs
  | p :: ps, c :: cs => if c = p then stripPre ps cs else none
  | _ :: _, [] => none

mutual
/-- Parse one JSON value. The fuel bounds the recursion depth; every
unit of fuel spent corresponds to at least one consumed input
character per two units, so `2 * length + 4` is ample. -/
def parseJVal : Nat → List Char → Option (JVal × List Char)
  | 0, _ => none
  | fuel + 1, cs =>
      match cs.dropWhile isJsonWs with
      | [] => none
      | c :: rest =>
          if c = '"' then
            match parseJStr rest [] with
            | none => none
            | some (s, rest2) => some (JVal.jstr s, rest2)
          else if c = lbraceChar then parseJObjBody fuel rest
          else if c = '[' then parseJArrBody fuel rest
          else if c = 't' then
            (stripPre "rue".data rest).map (fun r => (JVal.jbool true, r))
          else if c = 'f' then
            (stripPre "alse".data rest).map (fun r => (JVal.jbool false, r))
          else if c = 'n' then
            (stripPre "ull".data rest).map (fun r => (JVal.jnull, r))
          else if c = 'N' then
            (stripPre "aN".data rest).map (fun r => (JVal.jnum "nan", r))
          else if c = 'I' then
            (stripPre "nfinity".data rest).map (fun r => (JVal.jnum "inf", r))
          else if c = '-' && (stripPre "Infinity".data rest).isSome then
            (stripPre "Infinity".data rest).map (fun r => (JVal.jnum "-inf", r))
          else parseJNum (c :: rest)

/-- Parse an object body after the opening brace. -/
def parseJObjBody : Nat → List Char → Option (JVal × List Char)
  | 0, _ => none
  | fuel + 1, cs =>
      match cs.dropWhile isJsonWs with
      | c :: rest =>
          if c = rbraceChar then some (JVal.jobj [], rest)
          else if c = '"' then
            match parseJStr rest [] with
            | none => none
            | some (k, rest2) =>
                match rest2.dropWhile isJsonWs with
                | ':' :: rest3 =>
                    match parseJVal fuel rest3 with
                    | none => none
                    | some (v, rest4) => parseJObjRest fuel rest4 (dictInsert [] k v)
                | _ => none
          else none
      | [] => none

/-- Parse `, "key": value`* and the closing brace. -/
def parseJObjRest : Nat → List Char → List (String × JVal) →
    Option (JVal × List Char)
  | 0, _, _ => none
  | fuel + 1, cs, acc =>
      match cs.dropWhile isJsonWs with
      | c :: rest =>
          if c = rbraceChar then some (JVal.jobj acc, rest)
          else if c = ',' then
            match rest.dropWhile isJsonWs with
            | c2 :: rest2 =>
                if c2 = '"' then
                  match parseJStr rest2 [] with
                  | none => none
                  | some (k, rest3) =>
                      match rest3.dropWhile isJsonWs with
                      | ':' :: rest4 =>
                          match parseJVal fuel rest4 with
                          | none => none
                          | some (v, rest5) =>
                              parseJObjRest fuel rest5 (dictInsert acc k v)
                      | _ => none
                else none
            | [] => none
          else none
      | [] => none

/-- Parse an array body after the opening bracket. -/
def parseJArrBody : Nat → List Char → Option (JVal × List Char)
  | 0, _ => none
  | fuel + 1, cs =>
      match cs.dropWhile isJsonWs with
      | c :: _ =>
          if c = ']' then some (JVal.jarr [], (cs.dropWhile isJsonWs).tail)
          else
            match parseJVal fuel cs with
            | none => none
            | some (v, rest2) => parseJArrRest fuel rest2 [v]
      | [] => none

/-- Parse `, value`* and the closing bracket. The accumulator holds
the elements in reverse. -/
def parseJArrRest : Nat → List Char → List JVal → Option (JVal × List Char)
  | 0, _, _ => none
  | fuel + 1, cs, acc =>
      match cs.dropWhile isJsonWs with
      | c :: rest =>
          if c = ']' then some (JVal.jarr acc.reverse, rest)
          else if c = ',' then
            match parseJVal fuel rest with
            | none => none
            | some (v, rest2) => parseJArrRest fuel rest2 (v :: acc)
          else none
      | [] => none
end

/-- Parse a complete JSON document whose top-level value is an object,
requiring the whole input to be consumed (`json.loads` rejects
trailing data). A document whose top-level value is not an object also
maps to `none`: on it the handler's `payload.get` raises
`AttributeError` and ends in the same failure redirect without
touching the store. -/
def parseTopObj (s : String) : Option Payload :=
  match parseJVal (2 * s.length + 4) s.data with
  | some (JVal.jobj kvs, rest) =>
      if rest.dropWhile isJsonWs = [] then some kvs else none
  | _ => none

/-- Decode the callback `data` query parameter: base64, strict UTF-8,
JSON parse — the `try` block of `esewa_callback` before signature
verification. -/
def decodePayload (s : String) : Option Payload :=
  match b64decode s with
  | none => none
  | some bs =>
      match bytesToStr bs with
      | none => none
      | some txt => parseTopObj txt

/-- The TEXT that the SQLite comparison in
`UPDATE orders SET status = ? WHERE transaction_uuid = ?` sees for a
bound payload value: the column has TEXT affinity, so a bound
integer, boolean or float is compared through its text conversion;
`None` — and a float NaN — binds NULL, which matches no row
(`some none`); a list, a dict, or an integer beyond 64 bits cannot be
bound, so `sqlite3` raises and the handler's bare `except` turns that
into the failure redirect (`none`). -/
def bindText : JVal → Option (Option String)
  | .jstr s => some (some s)
  | .jint n =>
      if n < -(2 ^ 63) ∨ 2 ^ 63 ≤ n then none
      else some (some (toString n))
  | .jnum t =>
      match sqliteFloatText t with
      | none => some none
      | some txt => some (some txt)
  | .jbool b => some (some (if b then "1" else "0"))
  | .jnull => some none
  | .jarr _ => none
  | .jobj _ => none

/-- Binding of `payload.get("transaction_uuid")`: an absent key gives
Python `None`, which binds NULL. -/
def bindOpt : Option JVal → Option (Option String)
  | none => some none
  | some v => bindText v

/-! ## Configuration (`main.py` module-level constants, environment
supplied with these defaults) -/

/-- The eSewa configuration read at startup in `main.py`. -/
structure Config where
  product_code : String
  secret_key : String
  base_url : String
  form_url : String
deriving DecidableEq

/-- The default sandbox configuration of `main.py`. -/
def defaultConfig : Config :=
  { product_code := "EPAYTEST"
    secret_key := "8gBm/:&EnhH.1/q"
    base_url := "http://localhost:8000"
    form_url := "https://rc-epay.esewa.com.np/api/epay/main/v2/form" }

/-! ## Data model (`database.py` schema) -/

/-- A row of the `products` table. -/
structure Product where
  id : ℤ
  name : String
  description : String
  price : ℚ
  image_url : String
deriving DecidableEq

/-- A row of the `orders` table (the `created_at` timestamp column is
wall-clock time and outside the embedding). -/
structure Order where
  id : ℤ
  transaction_uuid : String
  customer_name : String
  customer_email : String
  customer_phone : String
  customer_address : String
  amount : ℚ
  tax_amount : ℚ
  service_charge : ℚ
  delivery_charge : ℚ
  total_amount : ℚ
  status : String
deriving DecidableEq

/-- A row of the `order_items` table. -/
structure OrderItem where
  id : ℤ
  order_id : ℤ
  product_id : ℤ
  quantity : ℤ
  price : ℚ
deriving DecidableEq

/-- One entry of the request cart: a dict with a `productId` key and an
optional `quantity` key (`none` models an absent key). -/
structure CartItem where
  productId : Option ℤ
  quantity : Option ℤ
deriving DecidableEq

/-- The SQLite store: table contents plus the `AUTOINCREMENT` counters. -/
structure DB where
  products : List Product
  orders : List Order
  order_items : List OrderItem
  next_product_id : ℤ
  next_order_id : ℤ
  next_item_id : ℤ
deriving DecidableEq

/-- A store with empty tables. -/
def emptyDB : DB :=
  { products := [], orders := [], order_items := []
    next_product_id := 1, next_order_id := 1, next_item_id := 1 }

/-- Model of `database.init_db`: create the schema and seed the four products
when the table is empty. -/
def init_db (db : DB) : DB :=
  if db.products.isEmpty then
    { db with
      products :=
        [ { id := 1, name := "Classic Aviator Sunglasses"
            description := "Timeless aviator frames with UV400 protection and mirrored lenses."
            price := mkRat 5999 100, image_url := "/static/images/aviator.png" }
        , { id := 2, name := "Retro Round Sunglasses"
            description := "Vintage-inspired round sunglasses with polarized lenses."
            price := mkRat 4550 100, image_url := "/static/images/retro.png" }
        , { id := 3, name := "Sporty Wraparound Shades"
            description := "Durable wraparound sunglasses designed for outdoor sports."
            price := mkRat 3900 100, image_url := "/static/images/sporty.png" }
        , { id := 4, name := "Lucky Purchase"
            description := "Try your luck! Mystery sunglasses at an amazing price."
            price := mkRat 100 100, image_url := "/static/images/lucky.png" } ]
      next_product_id := 5 }
  else db

/-- Model of `SELECT price FROM products WHERE id = ?` with the item's
`productId` (a missing key queries with `None`, which matches no row). -/
def find_product (db : DB) (pid : Option ℤ) : Option Product :=
  match pid with
  | none => none
  | some i => db.products.find? (fun p => p.id = i)

/-- Model of `database.create_product`. -/
def create_product (db : DB) (name description : String) (price : ℚ)
    (image_url : String) : DB × ℤ :=
  ({ db with
     products := db.products ++
       [{ id := db.next_product_id, name, description, price, image_url }]
     next_product_id := db.next_product_id + 1 },
   db.next_product_id)

/-- Model of `database.update_product`. -/
def update_product (db : DB) (pid : ℤ) (name description : String)
    (price : ℚ) (image_url : String) : DB :=
  { db with
    products := db.products.map (fun p =>
      if p.id = pid then { p with name, description, price, image_url } else p) }

/-- Model of `database.delete_product`. -/
def delete_product (db : DB) (pid : ℤ) : DB :=
  { db with products := db.products.filter (fun p => p.id ≠ pid) }

/-- One iteration of the subtotal loop of `database.create_order`: look
up the entry's price, an absent `quantity` key defaulting to 1, and
fail on an unknown product; a prior failure propagates (the source
raises out of the loop). -/
def scan_step (db : DB) (acc : Except String ℚ) (item : CartItem) :
    Except String ℚ :=
  match acc with
  | .error e => .error e
  | .ok s =>
      match find_product db item.productId with
      | none =>
          .error ("Product " ++
            (match item.productId with
             | some i => toString i
             | none => "None") ++ " not found")
      | some p => .ok (qadd s (qmul p.price (mkRat (item.quantity.getD 1) 1)))

/-- The subtotal loop of `database.create_order`. -/
def subtotal_scan (db : DB) (cart : List CartItem) : Except String ℚ :=
  cart.foldl (scan_step db) (.ok (mkRat 0 1))

/-- The item rows inserted by the second loop of
`database.create_order`; the defaults are unreachable once the subtotal
loop has succeeded (mirroring the source's unchecked second lookup). -/
def item_rows (db : DB) (order_id first_id : ℤ) (cart : List CartItem) :
    List OrderItem :=
  cart.enum.map (fun pr =>
    { id := first_id + pr.1
      order_id := order_id
      product_id := pr.2.productId.getD 0
      quantity := pr.2.quantity.getD 1
      price := ((find_product db pr.2.productId).map Product.price).getD (mkRat 0 1) })

/-- Model of `database.create_order`. The transaction uuid that the source draws
from `uuid.uuid4()` is an explicit argument; the `UNIQUE` constraint of
the `orders.transaction_uuid` column is the guard before insertion. On
any failure the uncommitted connection is closed, so the store is
returned unchanged. -/
def create_order (db : DB) (transaction_uuid : String)
    (customer_name customer_email customer_phone customer_address : String)
    (cart : List CartItem) (tax_amount service_charge delivery_charge : ℚ) :
    DB × Except String Order :=
  match subtotal_scan db cart with
  | .error e => (db, .error e)
  | .ok s =>
      let amount := round2 s
      let total_amount :=
        round2 (qadd (qadd (qadd amount tax_amount) service_charge) delivery_charge)
      if db.orders.any (fun o => o.transaction_uuid = transaction_uuid) then
        (db, .error "UNIQUE constraint failed: orders.transaction_uuid")
      else
        let order : Order :=
          { id := db.next_order_id, transaction_uuid
            customer_name, customer_email, customer_phone, customer_address
            amount, tax_amount, service_charge, delivery_charge, total_amount
            status := "INITIATED" }
        let items := item_rows db order.id db.next_item_id cart
        ({ db with
           orders := db.orders ++ [order]
           order_items := db.order_items ++ items
           next_order_id := db.next_order_id + 1
           next_item_id := db.next_item_id + items.length },
         .ok order)

/-- Model of `database.get_order_by_id`. -/
def get_order_by_id (db : DB) (oid : ℤ) : Option Order :=
  db.orders.find? (fun o => o.id = oid)

/-- Model of `database.get_order_by_uuid`. -/
def get_order_by_uuid (db : DB) (transaction_uuid : String) : Option Order :=
  db.orders.find? (fun o => o.transaction_uuid = transaction_uuid)

/-- Model of `database.update_order_status`: set the status of every order whose
`transaction_uuid` matches; a `None` or unknown uuid matches no row and
the update is a silent no-op. -/
def update_order_status (db : DB) (transaction_uuid : Option String)
    (status : String) : DB :=
  { db with
    orders := db.orders.map (fun o =>
      if some o.transaction_uuid = transaction_uuid then { o with status } else o) }

/-! ## Payment adapter endpoints (`main.py`) -/

/-- Model of `main.generate_signature`: HMAC-SHA256 over the signing string,
base64-encoded. -/
def generate_signature (cfg : Config) (total_amount transaction_uuid : String) :
    String :=
  let data_string :=
    "total_amount=" ++ total_amount ++
    ",transaction_uuid=" ++ transaction_uuid ++
    ",product_code=" ++ cfg.product_code
  b64encode (hmacSha256 (strBytes cfg.secret_key) (strBytes data_string))

/-- The `form_data` dict returned by `api_initiate_payment`. -/
structure FormFields where
  amount : String
  tax_amount : String
  total_amount : String
  transaction_uuid : String
  product_code : String
  product_service_charge : String
  product_delivery_charge : String
  success_url : String
  failure_url : String
  signed_field_names : String
  signature : String
deriving DecidableEq

/-- Model of `main.api_initiate_payment`: the request's `orderId` is `none` for
an absent key and `some 0` is falsy to Python's `not order_id`; the
handler only reads the store, which is returned unchanged. -/
def api_initiate_payment (cfg : Config) (db : DB) (order_id : Option ℤ) :
    DB × Except String FormFields :=
  match order_id with
  | none => (db, .error "Missing orderId")
  | some oid =>
      if oid = 0 then (db, .error "Missing orderId")
      else
        match get_order_by_id db oid with
        | none => (db, .error "Order not found")
        | some o =>
            (db, .ok
              { amount := fmt2 o.amount
                tax_amount := fmt2 o.tax_amount
                total_amount := fmt2 o.total_amount
                transaction_uuid := o.transaction_uuid
                product_code := cfg.product_code
                product_service_charge := fmt2 o.service_charge
                product_delivery_charge := fmt2 o.delivery_charge
                success_url := cfg.base_url ++ "/esewa-callback"
                failure_url := cfg.base_url ++ "/esewa-callback?status=fail"
                signed_field_names := "total_amount,transaction_uuid,product_code"
                signature := generate_signature cfg (fmt2 o.total_amount) o.transaction_uuid })

/-- The verification string `esewa_callback` reconstructs from the
decoded payload, with the adapter's own configured product code. -/
def verify_string_of (cfg : Config) (p : Payload) : String :=
  "transaction_code=" ++ pgetStr p "transaction_code" ++
  ",status=" ++ pgetStr p "status" ++
  ",total_amount=" ++ pgetStr p "total_amount" ++
  ",transaction_uuid=" ++ pgetStr p "transaction_uuid" ++
  ",product_code=" ++ cfg.product_code ++
  ",signed_field_names=" ++ pgetStr p "signed_field_names"

/-- The signature `esewa_callback` recomputes over the reconstructed
verification string. -/
def computed_sig_of (cfg : Config) (p : Payload) : String :=
  b64encode (hmacSha256 (strBytes cfg.secret_key) (strBytes (verify_string_of cfg p)))

/-- Model of `main.esewa_callback` on the two query parameters it reads; the
result is the updated store and the redirect target. -/
def esewa_callback (cfg : Config) (db : DB) (status_param data_param : Option String) :
    DB × String :=
  if status_param = some "fail" then (db, "/failure.html")
  else
    match data_param with
    | none => (db, "/failure.html")
    | some encoded =>
        if encoded = "" then (db, "/failure.html")
        else
          match decodePayload encoded with
          | none => (db, "/failure.html")
          | some payload =>
              if jstrEq (pget payload "signature") (computed_sig_of cfg payload) &&
                 jstrEq (pget payload "status") "COMPLETE" then
                match bindOpt (pget payload "transaction_uuid") with
                | none => (db, "/failure.html")
                | some u => (update_order_status db u "COMPLETED", "/success.html")
              else (db, "/failure.html")

/-- Model of `main.admin_confirm_order`: mark the order as COMPLETED and
redirect to the admin order list. -/
def admin_confirm_order (db : DB) (transaction_uuid : String) : DB × String :=
  (update_order_status db (some transaction_uuid) "COMPLETED", "/admin/orders")

/-! ## The reachable states of the store -/

/-- One state-mutating request handled by the application. -/
inductive Step : DB → DB → Prop
  | create_order (db : DB) (u cn ce cp ca : String) (cart : List CartItem)
      (tax svc del : ℚ) :
      Step db (create_order db u cn ce cp ca cart tax svc del).1
  | esewa_callback (cfg : Config) (db : DB) (sp dp : Option String) :
      Step db (esewa_callback cfg db sp dp).1
  | admin_confirm (db : DB) (u : String) :
      Step db (admin_confirm_order db u).1
  | create_product (db : DB) (n d : String) (price : ℚ) (url : String) :
      Step db (create_product db n d price url).1
  | update_product (db : DB) (pid : ℤ) (n d : String) (price : ℚ) (url : String) :
      Step db (update_product db pid n d price url)
  | delete_product (db : DB) (pid : ℤ) :
      Step db (delete_product db pid)

/-- The stores reachable from a fresh deployment: `init_db` runs at
startup on the empty store and every later mutation is a `Step`. -/
inductive Reachable : DB → Prop
  | init : Reachable (init_db emptyDB)
  | step {db db' : DB} : Reachable db → Step db db' → Reachable db'

/-- The decision `esewa_callback` takes, read off its branches: `some
u` when verification succeeds and the orders matching uuid `u` are to
be marked COMPLETED, `none` when the request is rejected. Derived for
the proofs below; `esewa_callback_run` relates it to the handler. -/
def callback_accepts (cfg : Config) (sp dp : Option String) : Option (Option String) :=
  if sp = some "fail" then none
  else
    match dp with
    | none => none
    | some encoded =>
        if encoded = "" then none
        else
          match decodePayload encoded with
          | none => none
          | some payload =>
              if jstrEq (pget payload "signature") (computed_sig_of cfg payload) &&
                 jstrEq (pget payload "status") "COMPLETE" then
                bindOpt (pget payload "transaction_uuid")
              else none

/-! ## Concrete fixtures used in the closed checks below -/

/-- A store holding one product priced 513/256 (the dyadic 2.00390625,
exactly representable as a Python float). -/
def c3CexDB : DB := (create_product emptyDB "P" "d" (mkRat 513 256) "img").1

/-- A one-entry cart for that product. -/
def c3CexCart : List CartItem := [{ productId := some 1, quantity := none }]

/-- The order created on the seeded store from the cart
`[(productId 1, quantity 2)]` with tax 5, service charge 2 and delivery
charge 3. -/
def wOrder : Order :=
  { id := 1, transaction_uuid := "u1", customer_name := "n"
    customer_email := "e", customer_phone := "p", customer_address := "a"
    amount := mkRat 11998 100, tax_amount := mkRat 5 1
    service_charge := mkRat 2 1, delivery_charge := mkRat 3 1
    total_amount := mkRat 12998 100, status := "INITIATED" }

/-- The seeded store after creating that order. -/
def wDB : DB :=
  (create_order (init_db emptyDB) "u1" "n" "e" "p" "a"
    [{ productId := some 1, quantity := some 2 }]
    (mkRat 5 1) (mkRat 2 1) (mkRat 3 1)).1

/-- The same store with one extra product row. -/
def wDB2 : DB := (create_product wDB "X" "d" (mkRat 1 1) "img").1

/-- The store `wDB` after an admin confirmation of order `u1`. -/
def wDBC : DB := (admin_confirm_order wDB "u1").1

/-! ## Evaluation checks of the primitive layer (RFC 6234 / RFC 4231
test vectors and formatting checks) -/

example : sha256 (strBytes "abc") =
    [0xba, 0x78, 0x16, 0xbf, 0x8f, 0x01, 0xcf, 0xea, 0x41, 0x41, 0x40, 0xde, 0x5d, 0xae, 0x22, 0x23,
     0xb0, 0x03, 0x61, 0xa3, 0x96, 0x17, 0x7a, 0x9c, 0xb4, 0x10, 0xff, 0x61, 0xf2, 0x00, 0x15, 0xad] := by
  decide

example : b64encode (strBytes "foob") = "Zm9vYg==" := by decide

example : b64decode "Zm9vYg==" = some (strBytes "foob") := by decide

example : some (hmacSha256 (strBytes "Jefe") (strBytes "what do ya want for nothing?")) =
    b64decode "W9zBRr9gdU5qBCQmCJV1x1oAPwidJzmDnexYuWTsOEM=" := by decide

example : round2 (qadd (qadd (qadd (mkRat 11998 100) (mkRat 5 1)) (mkRat 2 1)) (mkRat 3 1)) =
    mkRat 12998 100 := by decide

example : fmt2 (mkRat 12998 100) = "129.98" := by decide

example : fmt2 (mkRat 5 1) = "5.00" := by decide

example : roundHalfEven (mkRat 125 10) = 12 := by decide

example : b64decode "=Zm9vYg==" = some (strBytes "foob") := by decide

example : b64decode "Zm9vYg=x=" = some (strBytes "foob" ++ [12]) := by decide

example : b64decode "AAAA=A" = none := by decide

example : b64decode "YQ=" = none := by decide

example : b64decode "YQ==ignored" = some [97] := by decide

example : bytesToStr [0x61, 0xc3, 0xa9, 0xe2, 0x82, 0xac, 0xf0, 0x9f, 0x98, 0x80] =
    some (String.mk ['a', Char.ofNat 0xe9, Char.ofNat 0x20ac, Char.ofNat 0x1f600]) := by
  decide

example : bytesToStr [0xc0, 0xaf] = none := by decide

example : bytesToStr [0xed, 0xa0, 0x80] = none := by decide

example :
    parseTopObj " \x7b\"status\": \"COMPLETE\", \"total_amount\": \"129.98\"\x7d " =
      some [("status", JVal.jstr "COMPLETE"), ("total_amount", JVal.jstr "129.98")] := by
  rfl

example : parseTopObj "\x7b\"a\": 1, \"a\": 2\x7d" = some [("a", JVal.jint 2)] := by rfl

example :
    parseTopObj "\x7b\"n\": -12, \"x\": 1.50, \"b\": [true, null, \"q\"], \"o\": \x7b\"k\": 2e3\x7d\x7d" =
      some [("n", JVal.jint (-12)), ("x", JVal.jnum "1.50"),
            ("b", JVal.jarr [JVal.jbool true, JVal.jnull, JVal.jstr "q"]),
            ("o", JVal.jobj [("k", JVal.jnum "2e3")])] := by rfl

example : parseTopObj "\x7b\"s\": \"a\\n\\u0041\\uD83D\\uDE00\"\x7d" =
    some [("s", JVal.jstr (String.mk ['a', '\n', 'A', Char.ofNat 0x1f600]))] := by rfl

example : parseTopObj "\x7b\"s\": \"\\uD800\"\x7d" = none := by rfl

example : parseTopObj "[1, 2]" = none := by rfl

example : parseTopObj "\x7b\"a\": 01\x7d" = none := by rfl

example : pyFloatStr "1.5" = "1.5" := by decide

example : pyFloatStr "2e3" = "2000.0" := by decide

example : pyFloatStr "1.50" = "1.5" := by decide

example : pyFloatStr "129.98" = "129.98" := by decide

example : pyFloatStr "0.30000000000000004" = "0.30000000000000004" := by decide

example : pyFloatStr "1e16" = "1e+16" := by decide

example : pyFloatStr "0.00001" = "1e-05" := by decide

example : pyFloatStr "1e400" = "inf" := by rfl

example : sqliteFloatText "1e16" = some "1.0e+16" := by decide

example : sqliteFloatText "0.30000000000000004" = some "0.3" := by decide

example : sqliteFloatText "5e-324" = some "4.94065645841247e-324" := by decide

example : sqliteFloatText "nan" = none := by rfl

example : pget [("a", JVal.jint 1), ("b", JVal.jnull)] "b" = some JVal.jnull := by rfl

/-! ## General lemmas about the operations -/

/-- Normalising a cart entry to an explicit quantity. -/
def fillQuantity (i : CartItem) : CartItem :=
  { i with quantity := some (i.quantity.getD 1) }

theorem scan_step_fill (db : DB) (acc : Except String ℚ) (i : CartItem) :
    scan_step db acc (fillQuantity i) = scan_step db acc i := rfl

theorem subtotal_scan_fill (db : DB) (cart : List CartItem) :
    subtotal_scan db (cart.map fillQuantity) = subtotal_scan db cart := by
  unfold subtotal_scan
  rw [List.foldl_map]
  rfl

theorem item_rows_fill (db : DB) (oid iid : ℤ) (cart : List CartItem) :
    item_rows db oid iid (cart.map fillQuantity) = item_rows db oid iid cart := by
  unfold item_rows
  rw [List.enum_map, List.map_map]
  rfl

theorem foldl_scan_step_error (db : DB) (cart : List CartItem) (e : String) :
    cart.foldl (scan_step db) (.error e) = .error e := by
  induction cart with
  | nil => rfl
  | cons hd tl ih => exact ih

theorem subtotal_scan_err_aux (db : DB) (item : CartItem)
    (hmiss : find_product db item.productId = none) :
    ∀ (cart : List CartItem) (acc : Except String ℚ), item ∈ cart →
      ∃ e, cart.foldl (scan_step db) acc = .error e := by
  intro cart
  induction cart with
  | nil => intro acc h; cases h
  | cons hd tl ih =>
      intro acc hmem
      rcases List.mem_cons.mp hmem with hmem | hmem
      · subst hmem
        match acc with
        | .error e => exact ⟨e, foldl_scan_step_error db _ e⟩
        | .ok s =>
            refine ⟨("Product " ++
              (match item.productId with
               | some i => toString i
               | none => "None") ++ " not found"), ?_⟩
            simp only [List.foldl_cons, scan_step, hmiss]
            exact foldl_scan_step_error db tl _
      · exact ih _ hmem

theorem subtotal_scan_err (db : DB) (cart : List CartItem) (item : CartItem)
    (hmem : item ∈ cart) (hmiss : find_product db item.productId = none) :
    ∃ e, subtotal_scan db cart = .error e :=
  subtotal_scan_err_aux db item hmiss cart _ hmem

theorem esewa_callback_run (cfg : Config) (db : DB) (sp dp : Option String) :
    esewa_callback cfg db sp dp =
      match callback_accepts cfg sp dp with
      | some u => (update_order_status db u "COMPLETED", "/success.html")
      | none => (db, "/failure.html") := by
  unfold esewa_callback callback_accepts
  by_cases hsp : sp = some "fail"
  · simp [hsp]
  · simp only [hsp, if_false]
    cases dp with
    | none => rfl
    | some encoded =>
        by_cases he : encoded = ""
        · simp [he]
        · simp only [he, if_false]
          cases hdec : decodePayload encoded with
          | none => rfl
          | some payload =>
              by_cases hv : (jstrEq (pget payload "signature") (computed_sig_of cfg payload) &&
                  jstrEq (pget payload "status") "COMPLETE") = true
              · simp only [hv, if_true]
                cases hb : bindOpt (pget payload "transaction_uuid") with
                | none => rfl
                | some u => rfl
              · simp [hv]

theorem update_order_status_twice (db : DB) (u : Option String) (s : String) :
    update_order_status (update_order_status db u s) u s =
      update_order_status db u s := by
  unfold update_order_status
  simp only [List.map_map]
  congr 1
  apply List.map_congr_left
  intro o _
  by_cases hc : some o.transaction_uuid = u
  · simp [Function.comp, hc]
  · simp [Function.comp, hc]

/-- C7: the order-status update is idempotent, and hence so is
redelivering one and the same callback request. -/
theorem update_order_status_idempotent :
    (∀ (db : DB) (u : Option String) (s : String),
      update_order_status (update_order_status db u s) u s =
        update_order_status db u s) ∧
    (∀ (cfg : Config) (db : DB) (sp dp : Option String),
      (esewa_callback cfg (esewa_callback cfg db sp dp).1 sp dp).1 =
        (esewa_callback cfg db sp dp).1) := by
  refine ⟨update_order_status_twice, ?_⟩
  intro cfg db sp dp
  rw [esewa_callback_run cfg db sp dp]
  cases h : callback_accepts cfg sp dp with
  | none =>
      simp only []
      rw [esewa_callback_run, h]
  | some u =>
      simp only []
      rw [esewa_callback_run, h]
      simp only []
      exact update_order_status_twice db u "COMPLETED"

/-- C9: a cart entry with an absent `quantity` key behaves exactly as
quantity 1 — replacing absent quantities by an explicit 1 leaves
`create_order` unchanged, the normalisation sends an absent quantity to
1, the subtotal step agrees, and the persisted item row carries
quantity 1. -/
theorem create_order_default_quantity (db : DB) (u cn ce cp ca : String)
    (cart : List CartItem) (tax svc del : ℚ) :
    create_order db u cn ce cp ca (cart.map fillQuantity) tax svc del =
      create_order db u cn ce cp ca cart tax svc del ∧
    (∀ pid, fillQuantity { productId := pid, quantity := none } =
      { productId := pid, quantity := some 1 }) ∧
    (∀ acc pid, scan_step db acc { productId := pid, quantity := none } =
      scan_step db acc { productId := pid, quantity := some 1 }) ∧
    (∀ oid iid pid,
      (item_rows db oid iid [{ productId := pid, quantity := none }]).map
          OrderItem.quantity = [1]) := by
  refine ⟨?_, fun pid => rfl, fun acc pid => rfl, fun oid iid pid => rfl⟩
  unfold create_order
  rw [subtotal_scan_fill]
  cases h : subtotal_scan db cart with
  | error e => rfl
  | ok s => simp only [item_rows_fill]

/-- C4: a cart referencing an unknown product makes `create_order`
raise, and the store is left unchanged — no order row and no item rows
are persisted. -/
theorem create_order_unknown_product_atomic (db : DB) (u cn ce cp ca : String)
    (cart : List CartItem) (tax svc del : ℚ) (item : CartItem)
    (hmem : item ∈ cart) (hmiss : find_product db item.productId = none) :
    ∃ e, create_order db u cn ce cp ca cart tax svc del = (db, .error e) := by
  obtain ⟨e, he⟩ := subtotal_scan_err db cart item hmem hmiss
  refine ⟨e, ?_⟩
  unfold create_order
  rw [he]

theorem create_order_unknown_product_atomic_witness :
    (⟨some 99, none⟩ : CartItem) ∈ [(⟨some 99, none⟩ : CartItem)] ∧
    find_product (init_db emptyDB) (some 99) = none ∧
    ∃ e, create_order (init_db emptyDB) "u1" "n" "e" "p" "a"
      [⟨some 99, none⟩] (mkRat 0 1) (mkRat 0 1) (mkRat 0 1) =
        (init_db emptyDB, .error e) :=
  ⟨by decide, by decide,
   create_order_unknown_product_atomic (init_db emptyDB) "u1" "n" "e" "p" "a"
     [⟨some 99, none⟩] (mkRat 0 1) (mkRat 0 1) (mkRat 0 1) ⟨some 99, none⟩
     (by decide) (by decide)⟩

/-- C3 (amended): the persisted subtotal is the rounded scanned sum and
the persisted total applies the rounding to the already-rounded
subtotal plus the three charges (double rounding, not a single rounding
of the exact sum). -/
theorem create_order_total_double_rounding (db : DB) (u cn ce cp ca : String)
    (cart : List CartItem) (tax svc del s : ℚ) (o : Order)
    (hs : subtotal_scan db cart = .ok s)
    (ho : (create_order db u cn ce cp ca cart tax svc del).2 = .ok o) :
    o.amount = round2 s ∧
    o.total_amount = round2 (qadd (qadd (qadd (round2 s) tax) svc) del) := by
  unfold create_order at ho
  rw [hs] at ho
  dsimp only at ho
  split at ho
  · cases ho
  · simp only [Except.ok.injEq] at ho
    subst ho
    exact ⟨rfl, rfl⟩

theorem create_order_total_double_rounding_witness :
    subtotal_scan (init_db emptyDB) [{ productId := some 1, quantity := some 2 }] =
      .ok (mkRat 11998 100) ∧
    (create_order (init_db emptyDB) "u1" "n" "e" "p" "a"
        [{ productId := some 1, quantity := some 2 }]
        (mkRat 5 1) (mkRat 2 1) (mkRat 3 1)).2 = .ok wOrder ∧
    (wOrder.amount = round2 (mkRat 11998 100) ∧
     wOrder.total_amount =
       round2 (qadd (qadd (qadd (round2 (mkRat 11998 100)) (mkRat 5 1)) (mkRat 2 1))
         (mkRat 3 1))) ∧
    wOrder.amount = mkRat 11998 100 ∧ wOrder.total_amount = mkRat 12998 100 :=
  ⟨by rfl, by rfl,
   create_order_total_double_rounding (init_db emptyDB) "u1" "n" "e" "p" "a"
     [{ productId := some 1, quantity := some 2 }]
     (mkRat 5 1) (mkRat 2 1) (mkRat 3 1) (mkRat 11998 100) wOrder
     (by rfl) (by rfl),
   by decide, by decide⟩

/-- C3 as stated fails: on a store whose single product costs 513/256,
a one-item cart with tax 1/256 persists total_amount 2.00, while a
single rounding of the exact sum gives 2.01. -/
theorem create_order_single_rounding_counterexample :
    subtotal_scan c3CexDB c3CexCart = .ok (mkRat 513 256) ∧
    ((create_order c3CexDB "u1" "n" "e" "p" "a" c3CexCart
        (mkRat 1 256) (mkRat 0 1) (mkRat 0 1)).2.map Order.total_amount) =
      .ok (mkRat 2 1) ∧
    round2 (qadd (qadd (qadd (mkRat 513 256) (mkRat 1 256)) (mkRat 0 1)) (mkRat 0 1)) =
      mkRat 201 100 ∧
    (mkRat 2 1 : ℚ) ≠ mkRat 201 100 :=
  ⟨by rfl, by rfl, by decide, by decide⟩

set_option maxHeartbeats 2000000 in
/-- C5: the outbound request's signature is the base64-encoded
HMAC-SHA256, keyed by the configured secret, of exactly the string
`total_amount=<total>,transaction_uuid=<uuid>,product_code=<code>`,
the total formatted with exactly two decimals. -/
theorem initiate_payment_signature_scheme (cfg : Config) (db : DB) (oid : ℤ)
    (o : Order) (h : get_order_by_id db oid = some o) (h0 : oid ≠ 0) :
    ∃ ff, (api_initiate_payment cfg db (some oid)).2 = .ok ff ∧
      ff.signature =
        b64encode (hmacSha256 (strBytes cfg.secret_key)
          (strBytes ("total_amount=" ++ fmt2 o.total_amount ++
            ",transaction_uuid=" ++ o.transaction_uuid ++
            ",product_code=" ++ cfg.product_code))) := by
  unfold api_initiate_payment
  dsimp only
  rw [if_neg h0, h]
  refine ⟨_, rfl, ?_⟩
  show generate_signature cfg (fmt2 o.total_amount) o.transaction_uuid =
    b64encode (hmacSha256 (strBytes cfg.secret_key)
      (strBytes ("total_amount=" ++ fmt2 o.total_amount ++
        ",transaction_uuid=" ++ o.transaction_uuid ++
        ",product_code=" ++ cfg.product_code)))
  unfold generate_signature
  rfl

theorem initiate_payment_signature_scheme_witness :
    get_order_by_id wDB 1 = some wOrder ∧ (1 : ℤ) ≠ 0 ∧
    ∃ ff, (api_initiate_payment defaultConfig wDB (some 1)).2 = .ok ff ∧
      ff.signature =
        b64encode (hmacSha256 (strBytes defaultConfig.secret_key)
          (strBytes ("total_amount=" ++ fmt2 wOrder.total_amount ++
            ",transaction_uuid=" ++ wOrder.transaction_uuid ++
            ",product_code=" ++ defaultConfig.product_code))) :=
  ⟨by rfl, by decide,
   initiate_payment_signature_scheme defaultConfig wDB 1 wOrder (by rfl) (by decide)⟩

/-- C8: the outbound request depends only on the configuration and the
order record that is read — two calls over stores agreeing on that
order produce identical responses, and neither call mutates its store. -/
theorem initiate_payment_deterministic (cfg : Config) (db1 db2 : DB) (oid : ℤ)
    (h : get_order_by_id db1 oid = get_order_by_id db2 oid) :
    (api_initiate_payment cfg db1 (some oid)).2 =
      (api_initiate_payment cfg db2 (some oid)).2 ∧
    (api_initiate_payment cfg db1 (some oid)).1 = db1 ∧
    (api_initiate_payment cfg db2 (some oid)).1 = db2 := by
  by_cases h0 : oid = 0
  · simp [api_initiate_payment, h0]
  · simp only [api_initiate_payment, h0, if_false, h]
    cases get_order_by_id db2 oid <;> simp

theorem initiate_payment_deterministic_witness :
    get_order_by_id wDB 1 = get_order_by_id wDB2 1 ∧
    ((api_initiate_payment defaultConfig wDB (some 1)).2 =
       (api_initiate_payment defaultConfig wDB2 (some 1)).2 ∧
     (api_initiate_payment defaultConfig wDB (some 1)).1 = wDB ∧
     (api_initiate_payment defaultConfig wDB2 (some 1)).1 = wDB2) :=
  ⟨by rfl, initiate_payment_deterministic defaultConfig wDB wDB2 1 (by rfl)⟩

theorem create_order_orders_cases (db : DB) (u cn ce cp ca : String)
    (cart : List CartItem) (tax svc del : ℚ) :
    (create_order db u cn ce cp ca cart tax svc del).1.orders = db.orders ∨
    ∃ o : Order, o.status = "INITIATED" ∧
      (create_order db u cn ce cp ca cart tax svc del).1.orders = db.orders ++ [o] := by
  unfold create_order
  cases hs : subtotal_scan db cart with
  | error e => exact Or.inl rfl
  | ok s =>
      dsimp only
      split
      · exact Or.inl rfl
      · exact Or.inr ⟨_, rfl, rfl⟩

theorem update_order_status_mem (db : DB) (u : Option String) (s : String)
    (o' : Order) (h : o' ∈ (update_order_status db u s).orders) :
    ∃ o, o ∈ db.orders ∧ (o' = o ∨ o' = { o with status := s }) := by
  unfold update_order_status at h
  rcases List.mem_map.mp h with ⟨o, ho, hfo⟩
  by_cases hc : some o.transaction_uuid = u
  · rw [if_pos hc] at hfo
    exact ⟨o, ho, Or.inr hfo.symm⟩
  · rw [if_neg hc] at hfo
    exact ⟨o, ho, Or.inl hfo.symm⟩

theorem update_status_ok (db : DB) (u : Option String)
    (h : ∀ o ∈ db.orders, o.status = "INITIATED" ∨ o.status = "COMPLETED") :
    ∀ o ∈ (update_order_status db u "COMPLETED").orders,
      o.status = "INITIATED" ∨ o.status = "COMPLETED" := by
  intro o' ho'
  rcases update_order_status_mem db u "COMPLETED" o' ho' with ⟨o, ho, hcase | hcase⟩
  · rw [hcase]; exact h o ho
  · rw [hcase]; exact Or.inr rfl

theorem step_status (db db' : DB) (hstep : Step db db')
    (h : ∀ o ∈ db.orders, o.status = "INITIATED" ∨ o.status = "COMPLETED") :
    ∀ o ∈ db'.orders, o.status = "INITIATED" ∨ o.status = "COMPLETED" := by
  cases hstep with
  | create_order db u cn ce cp ca cart tax svc del =>
      rcases create_order_orders_cases db u cn ce cp ca cart tax svc del with
        hc | ⟨o2, ho2, hc⟩
      · intro o ho; rw [hc] at ho; exact h o ho
      · intro o ho
        rw [hc] at ho
        rcases List.mem_append.mp ho with ho | ho
        · exact h o ho
        · have := List.mem_singleton.mp ho
          subst this
          exact Or.inl ho2
  | esewa_callback cfg db sp dp =>
      rw [esewa_callback_run]
      cases hacc : callback_accepts cfg sp dp with
      | none => exact h
      | some u => exact update_status_ok db u h
  | admin_confirm db u => exact update_status_ok db (some u) h
  | create_product db n d price url => exact h
  | update_product db pid n d price url => exact h
  | delete_product db pid => exact h

theorem reachable_status (db : DB) (hr : Reachable db) :
    ∀ o ∈ db.orders, o.status = "INITIATED" ∨ o.status = "COMPLETED" := by
  induction hr with
  | init =>
      intro o ho
      rw [show (init_db emptyDB).orders = ([] : List Order) from rfl] at ho
      cases ho
  | step hr hstep ih => exact step_status _ _ hstep ih

theorem find?_append_some {α : Type} (p : α → Bool) (l1 l2 : List α) (a : α)
    (h : l1.find? p = some a) : (l1 ++ l2).find? p = some a := by
  induction l1 with
  | nil => cases h
  | cons hd tl ih =>
      by_cases hp : p hd = true
      · rw [List.find?_cons_of_pos _ hp] at h
        rw [List.cons_append, List.find?_cons_of_pos _ hp]
        exact h
      · rw [List.find?_cons_of_neg _ (by simpa using hp)] at h
        rw [List.cons_append, List.find?_cons_of_neg _ (by simpa using hp)]
        exact ih h

theorem find?_map_pres {α : Type} (f : α → α) (p : α → Bool)
    (hpf : ∀ a, p (f a) = p a) (l : List α) :
    (l.map f).find? p = (l.find? p).map f := by
  induction l with
  | nil => rfl
  | cons hd tl ih =>
      rw [List.map_cons]
      cases hb : p hd with
      | true =>
          have hL : (f hd :: tl.map f).find? p = some (f hd) :=
            List.find?_cons_of_pos _ ((hpf hd).trans hb)
          have hR : (hd :: tl).find? p = some hd := List.find?_cons_of_pos _ hb
          rw [hL, hR]
          rfl
      | false =>
          have hfL : ¬ (p (f hd) = true) := by rw [hpf hd, hb]; simp
          have hfR : ¬ (p hd = true) := by rw [hb]; simp
          rw [List.find?_cons_of_neg _ hfL, List.find?_cons_of_neg _ hfR]
          exact ih

theorem update_completed_persists (db : DB) (u : String) (v : Option String)
    (h : (get_order_by_uuid db u).map Order.status = some "COMPLETED") :
    (get_order_by_uuid (update_order_status db v "COMPLETED") u).map Order.status =
      some "COMPLETED" := by
  unfold get_order_by_uuid at h ⊢
  unfold update_order_status
  dsimp only
  have hpres := find?_map_pres
    (fun o : Order =>
      if some o.transaction_uuid = v then { o with status := "COMPLETED" } else o)
    (fun o : Order => decide (o.transaction_uuid = u))
    (fun a => by
      dsimp only
      by_cases hc : some a.transaction_uuid = v
      · rw [if_pos hc]
      · rw [if_neg hc])
    db.orders
  rw [hpres]
  cases hf : db.orders.find? (fun o => o.transaction_uuid = u) with
  | none => rw [hf] at h; cases h
  | some o =>
      rw [hf] at h
      simp only [Option.map_some'] at h ⊢
      by_cases hc : some o.transaction_uuid = v
      · rw [if_pos hc]
      · rw [if_neg hc]
        exact h

/-- C6: in every reachable store an order's status is INITIATED or
COMPLETED (FAILED is never written), and across every single operation
an order that is COMPLETED stays COMPLETED — the status never reverts. -/
theorem order_status_lifecycle :
    (∀ db, Reachable db → ∀ o ∈ db.orders,
      o.status = "INITIATED" ∨ o.status = "COMPLETED") ∧
    (∀ db db' (u : String), Step db db' →
      (get_order_by_uuid db u).map Order.status = some "COMPLETED" →
      (get_order_by_uuid db' u).map Order.status = some "COMPLETED") := by
  refine ⟨reachable_status, ?_⟩
  intro db db' u hstep h
  cases hstep with
  | create_order db u2 cn ce cp ca cart tax svc del =>
      rcases create_order_orders_cases db u2 cn ce cp ca cart tax svc del with
        hc | ⟨o2, ho2, hc⟩
      · unfold get_order_by_uuid at h ⊢
        rw [hc]
        exact h
      · unfold get_order_by_uuid at h ⊢
        rw [hc]
        cases hf : db.orders.find? (fun o => o.transaction_uuid = u) with
        | none => rw [hf] at h; cases h
        | some o =>
            rw [hf] at h
            rw [find?_append_some _ _ _ o hf]
            exact h
  | esewa_callback cfg db sp dp =>
      rw [esewa_callback_run]
      cases hacc : callback_accepts cfg sp dp with
      | none => exact h
      | some v => exact update_completed_persists db u v h
  | admin_confirm db u2 => exact update_completed_persists db u (some u2) h
  | create_product db n d price url => exact h
  | update_product db pid n d price url => exact h
  | delete_product db pid => exact h

theorem order_status_lifecycle_witness :
    (wOrder.status = "INITIATED" ∨ wOrder.status = "COMPLETED") ∧
    (get_order_by_uuid (admin_confirm_order wDBC "u1").1 "u1").map Order.status =
      some "COMPLETED" :=
  ⟨order_status_lifecycle.1 wDB
      (Reachable.step Reachable.init (Step.create_order (init_db emptyDB) "u1" "n" "e" "p" "a"
        [{ productId := some 1, quantity := some 2 }] (mkRat 5 1) (mkRat 2 1) (mkRat 3 1)))
      wOrder (by decide),
   order_status_lifecycle.2 wDBC (admin_confirm_order wDBC "u1").1 "u1"
      (Step.admin_confirm wDBC "u1") (by decide)⟩
